import Mathlib

/-!
Shallow embedding of the tag/key derivation and relation-aware invalidation
engine of the zenstack-plugin-nextjs-cache repository (src/index.ts), together
with proofs of the spec claims about it.

JavaScript runtime values that flow through the codec and the query layer are
embedded as the inductive type `JsVal`; JS `Date` objects are embedded by their
UTC components (`DateC`), Prisma/Decimal.js decimal objects by their canonical
string form.  Schema metadata (`zenstack/schema`) is an explicit parameter.
-/

namespace NextjsCache

/-- UTC components of a JS `Date`, as rendered by `Date.prototype.toISOString`. -/
structure DateC where
  year : Nat
  month : Nat
  day : Nat
  hour : Nat
  minute : Nat
  second : Nat
  ms : Nat
deriving DecidableEq, Repr

/-- A JS runtime value: `null`/`undefined`, booleans, numbers, strings,
`Date` objects, Decimal objects (represented by their canonical string),
arrays and plain objects (ordered key/value lists, keys unique in JS). -/
inductive JsVal where
  | vNull : JsVal
  | vBool : Bool → JsVal
  | vNum : Int → JsVal
  | vStr : String → JsVal
  | vDate : DateC → JsVal
  | vDec : String → JsVal
  | vArr : List JsVal → JsVal
  | vObj : List (String × JsVal) → JsVal

/-- JS truthiness of an embedded value (`if (x)`). Objects, arrays, dates and
decimals are always truthy. -/
def jsTruthy : JsVal → Bool
  | .vNull => false
  | .vBool b => b
  | .vNum n => n != 0
  | .vStr s => s ≠ ""
  | _ => true

/-- `typeof x === 'object'` — true for objects, arrays, dates, decimals and
for `null` (a JS quirk); every use in the source guards with a truthiness
check first, which rules `null` out again. -/
def jsIsObject : JsVal → Bool
  | .vObj _ => true
  | .vArr _ => true
  | .vDate _ => true
  | .vDec _ => true
  | .vNull => true
  | _ => false

/-- `String.prototype.toLowerCase` for the ASCII model names this plugin
lowercases (kernel-reducible, unlike `String.toLower`). -/
def toLowerCase (s : String) : String := String.mk (s.toList.map Char.toLower)

/-- Field definition from the schema: `type` is the scalar type name or, for
relation fields, the related model's name; `relation` records whether the
field carries a relation marker. -/
structure FieldDef where
  type : String
  relation : Bool := false
deriving DecidableEq, Repr

/-- One named argument of a model-level attribute. -/
structure AttrArg where
  value : JsVal

/-- A model-level attribute such as `@@cache.exclude` or `@@cache.tags`. -/
structure ModelAttr where
  name : String
  args : List AttrArg := []

/-- A model definition: named fields and model-level attributes. -/
structure ModelDef where
  fields : List (String × FieldDef) := []
  attrs : List ModelAttr := []

/-- The schema: a finite map from model name to model definition,
embedding `schema.models`. -/
def Schema := List (String × ModelDef)

/-- `getModelAttributes`: attributes of a model, `[]` for an unknown model. -/
def getModelAttributes (sch : Schema) (modelName : String) : List ModelAttr :=
  ((List.lookup modelName sch).map ModelDef.attrs).getD []

/-- `getModelFields`: field map of a model, empty for an unknown model. -/
def getModelFields (sch : Schema) (modelName : String) : List (String × FieldDef) :=
  ((List.lookup modelName sch).map ModelDef.fields).getD []

/-- Membership of a field name in the model's `DateTime`-typed field set
(`getDateTimeFields(modelName).has(key)`). -/
def isDateTimeField (sch : Schema) (modelName fieldName : String) : Bool :=
  match List.lookup fieldName (getModelFields sch modelName) with
  | some f => f.type == "DateTime"
  | none => false

/-- Membership of a field name in the model's `Decimal`-typed field set
(`getDecimalFields(modelName).has(key)`). -/
def isDecimalField (sch : Schema) (modelName fieldName : String) : Bool :=
  match List.lookup fieldName (getModelFields sch modelName) with
  | some f => f.type == "Decimal"
  | none => false

/-- `getRelatedModels`: the `type` of every relation field, in field order. -/
def getRelatedModels (sch : Schema) (modelName : String) : List String :=
  ((getModelFields sch modelName).filter (fun kv => kv.2.relation)).map
    (fun kv => kv.2.type)

/-- `hasExcludeAttribute`: does the model carry `@@cache.exclude`? -/
def hasExcludeAttribute (sch : Schema) (modelName : String) : Bool :=
  (getModelAttributes sch modelName).any (fun attr => attr.name == "@@cache.exclude")

/-- `getCustomTags`: the string entries of the `@@cache.tags` attribute's
first argument when that argument is a (truthy) array; `none` otherwise. -/
def getCustomTags (sch : Schema) (modelName : String) : Option (List String) :=
  match (getModelAttributes sch modelName).find? (fun attr => attr.name == "@@cache.tags") with
  | none => none
  | some attr =>
    match attr.args.head? with
    | none => none
    | some arg =>
      if jsTruthy arg.value then
        match arg.value with
        | .vArr xs => some (xs.filterMap (fun v => match v with
            | .vStr s => some s
            | _ => none))
        | _ => none
      else none

/-- `getCacheRevalidateSeconds`: life profile to revalidation seconds, with the
switch's `default` branch returning 3600 for unrecognized profiles. -/
def getCacheRevalidateSeconds (profile : String) : Nat :=
  match profile with
  | "seconds" => 1
  | "minutes" => 60
  | "hours" => 3600
  | "days" => 86400
  | "weeks" => 604800
  | "max" => 31536000
  | _ => 3600

/-- `READ_OPERATIONS`. -/
def readOperationNames : List String :=
  ["findMany", "findUnique", "findFirst", "findUniqueOrThrow",
   "findFirstOrThrow", "count", "aggregate", "groupBy"]

/-- `isReadOperation`. -/
def isReadOperation (operation : String) : Bool :=
  readOperationNames.contains operation

/-- `generateCacheTags`: defer to the generator when one is passed; otherwise
`[model:list]` plus `model:id` when `id` is truthy (a non-empty string —
`if (id)` in JS is false for `undefined` and for the empty string). -/
def generateCacheTags (modelName : String) (id : Option String)
    (tagGenerator : Option (String → Option String → List String)) : List String :=
  match tagGenerator with
  | some g => g modelName id
  | none =>
    let modelLower := toLowerCase modelName
    let tags := [modelLower ++ ":list"]
    match id with
    | some i => if i ≠ "" then tags ++ [modelLower ++ ":" ++ i] else tags
    | none => tags

/-- `extractIdFromArgs`: the `where.id` value when it is a string, the decimal
rendering when it is a number, `undefined` otherwise. -/
def extractIdFromArgs (queryArgs : JsVal) : Option String :=
  match queryArgs with
  | .vObj args =>
    match List.lookup "where" args with
    | some (.vObj whereFields) =>
      match List.lookup "id" whereFields with
      | some (.vStr s) => some s
      | some (.vNum n) => some (toString n)
      | _ => none
    | _ => none
  | _ => none

/-- `extractIncludedRelations`: related-model names for every relation field
named in `include` with a truthy value, then every relation field named in
`select` with a truthy object value, in entry order. -/
def extractIncludedRelations (sch : Schema) (queryArgs : JsVal)
    (modelName : String) : List String :=
  match queryArgs with
  | .vObj args =>
    let fields := getModelFields sch modelName
    let fromInclude :=
      match List.lookup "include" args with
      | some (.vObj includeObj) =>
        includeObj.filterMap (fun kv =>
          if jsTruthy kv.2 then
            match List.lookup kv.1 fields with
            | some f => if f.relation then some f.type else none
            | none => none
          else none)
      | _ => []
    let fromSelect :=
      match List.lookup "select" args with
      | some (.vObj selectObj) =>
        selectObj.filterMap (fun kv =>
          if jsTruthy kv.2 && jsIsObject kv.2 then
            match List.lookup kv.1 fields with
            | some f => if f.relation then some f.type else none
            | none => none
          else none)
      | _ => []
    fromInclude ++ fromSelect
  | _ => []

/-- Decimal digit character (used for zero-padded date rendering). -/
def digitChar (n : Nat) : Char := Char.ofNat (48 + n)

/-- Two-digit zero-padded decimal rendering. -/
def pad2 (n : Nat) : List Char := [digitChar (n / 10 % 10), digitChar (n % 10)]

/-- Three-digit zero-padded decimal rendering. -/
def pad3 (n : Nat) : List Char :=
  [digitChar (n / 100 % 10), digitChar (n / 10 % 10), digitChar (n % 10)]

/-- Four-digit zero-padded decimal rendering. -/
def pad4 (n : Nat) : List Char :=
  [digitChar (n / 1000 % 10), digitChar (n / 100 % 10), digitChar (n / 10 % 10),
   digitChar (n % 10)]

/-- `Date.prototype.toISOString`: `YYYY-MM-DDTHH:mm:ss.sssZ`, for dates whose
year fits the four-digit rendering. -/
def toISOString (d : DateC) : String :=
  String.mk (pad4 d.year ++ '-' :: pad2 d.month ++ '-' :: pad2 d.day ++
    'T' :: pad2 d.hour ++ ':' :: pad2 d.minute ++ ':' :: pad2 d.second ++
    '.' :: pad3 d.ms ++ ['Z'])

/-- `ISO_DATE_REGEX.test(s)`: does the string start with
`dddd-dd-ddTdd:dd:dd` (`d` a decimal digit)? -/
def isoRegexTest (s : String) : Bool :=
  match s.toList with
  | c1 :: c2 :: c3 :: c4 :: '-' :: c5 :: c6 :: '-' :: c7 :: c8 :: 'T' ::
      c9 :: c10 :: ':' :: c11 :: c12 :: ':' :: c13 :: c14 :: _ =>
    [c1, c2, c3, c4, c5, c6, c7, c8, c9, c10, c11, c12, c13, c14].all Char.isDigit
  | _ => false

/-- Numeric value of two digit characters. -/
def d2 (a b : Char) : Nat := (a.toNat - 48) * 10 + (b.toNat - 48)

/-- Numeric value of three digit characters. -/
def d3 (a b c : Char) : Nat :=
  (a.toNat - 48) * 100 + (b.toNat - 48) * 10 + (c.toNat - 48)

/-- Numeric value of four digit characters. -/
def d4 (a b c d : Char) : Nat :=
  (a.toNat - 48) * 1000 + (b.toNat - 48) * 100 + (c.toNat - 48) * 10 + (d.toNat - 48)

/-- Parse of a full `YYYY-MM-DDTHH:mm:ss.sssZ` string into UTC components;
`none` when the string is not of that exact shape. -/
def parseISO (s : String) : Option DateC :=
  match s.toList with
  | [y1, y2, y3, y4, '-', m1, m2, '-', dd1, dd2, 'T', h1, h2, ':', mi1, mi2,
     ':', s1, s2, '.', ms1, ms2, ms3, 'Z'] =>
    if [y1, y2, y3, y4, m1, m2, dd1, dd2, h1, h2, mi1, mi2,
        s1, s2, ms1, ms2, ms3].all Char.isDigit then
      some ⟨d4 y1 y2 y3 y4, d2 m1 m2, d2 dd1 dd2, d2 h1 h2, d2 mi1 mi2,
        d2 s1 s2, d3 ms1 ms2 ms3⟩
    else none
  | _ => none

/-- `new Date(s)` for a regex-matching string: the parsed UTC components when
`s` is a full ISO rendering; an "invalid date" placeholder otherwise (the
codec only produces full renderings, so the placeholder is never met on the
round-trip path). -/
def jsNewDate (s : String) : JsVal :=
  match parseISO s with
  | some d => .vDate d
  | none => .vDate ⟨0, 0, 0, 0, 0, 0, 0⟩

/-- `new PrismaDecimal(v)` for a string or number `v`.  A decimal object is
embedded by its canonical string, so constructing from a canonical string is
the identity on that string, and constructing from a number uses the number's
decimal rendering. -/
def jsNewDecimal (v : JsVal) : JsVal :=
  match v with
  | .vStr s => .vDec s
  | .vNum n => .vDec (toString n)
  | _ => v

/-- Is the embedded value a JS string? -/
def jsIsString : JsVal → Bool
  | .vStr _ => true
  | _ => false

/-- Is the embedded value a JS number? -/
def jsIsNumber : JsVal → Bool
  | .vNum _ => true
  | _ => false

/-- Is the embedded value `null`/`undefined` (`value != null` is its negation)? -/
def jsIsNullish : JsVal → Bool
  | .vNull => true
  | _ => false

/-- Underlying string of a string value (unused default otherwise). -/
def strOf : JsVal → String
  | .vStr s => s
  | _ => ""

mutual

/-- `transformDates`: `null`/`undefined` pass through, a `Date` becomes its ISO
string, a Decimal (duck-typed in the source via `toFixed`/`d`, which in this
embedding is exactly the decimal constructor) becomes its string form, arrays
and objects are rebuilt recursively, all other values pass through. -/
def transformDates : JsVal → JsVal
  | .vNull => .vNull
  | .vDate d => .vStr (toISOString d)
  | .vDec s => .vStr s
  | .vArr xs => .vArr (transformDatesList xs)
  | .vObj fs => .vObj (transformDatesFields fs)
  | v => v

/-- `transformDates` mapped over an array's elements. -/
def transformDatesList : List JsVal → List JsVal
  | [] => []
  | x :: xs => transformDates x :: transformDatesList xs

/-- `transformDates` mapped over an object's entries. -/
def transformDatesFields : List (String × JsVal) → List (String × JsVal)
  | [] => []
  | (k, v) :: fs => (k, transformDates v) :: transformDatesFields fs

end

mutual

/-- `restoreTypesInternal(obj, modelName, PrismaDecimal)`: `pd` is whether the
dynamic Prisma-Decimal import succeeded.  `null`/`undefined` pass through,
arrays recurse element-wise under the same model, objects recurse entry-wise
guided by the model's field descriptors, and every other value passes through
(the transform output this function receives in the plugin contains no date or
decimal objects, only their string renderings). -/
def restoreTypesInternal (sch : Schema) (pd : Bool) : JsVal → String → JsVal
  | .vNull, _ => .vNull
  | .vArr xs, modelName => .vArr (restoreTypesList sch pd xs modelName)
  | .vObj fs, modelName => .vObj (restoreTypesFields sch pd fs modelName)
  | v, _ => v

/-- `restoreTypesInternal` mapped over an array's elements. -/
def restoreTypesList (sch : Schema) (pd : Bool) : List JsVal → String → List JsVal
  | [], _ => []
  | x :: xs, modelName =>
    restoreTypesInternal sch pd x modelName :: restoreTypesList sch pd xs modelName

/-- The `Object.entries(obj).map` body of `restoreTypesInternal`: a string
under a `DateTime` field matching the ISO prefix regex is parsed into a date;
a non-null string/number under a `Decimal` field is rebuilt into a decimal
when `pd` holds (left unchanged otherwise); a non-null value under a relation
field recurses under the related model; everything else is kept. -/
def restoreTypesFields (sch : Schema) (pd : Bool) :
    List (String × JsVal) → String → List (String × JsVal)
  | [], _ => []
  | (key, value) :: fs, modelName =>
    (key,
      if isDateTimeField sch modelName key && jsIsString value &&
          isoRegexTest (strOf value) then
        jsNewDate (strOf value)
      else if isDecimalField sch modelName key && !jsIsNullish value &&
          (jsIsString value || jsIsNumber value) then
        (if pd then jsNewDecimal value else value)
      else
        match List.lookup key (getModelFields sch modelName) with
        | some f =>
          if f.relation && !jsIsNullish value then
            restoreTypesInternal sch pd value f.type
          else value
        | none => value) :: restoreTypesFields sch pd fs modelName

end

/-- `restoreDates(obj, modelName)`: dynamically imports Prisma's Decimal —
`pd` records whether that import succeeds in the current environment — and
delegates to `restoreTypesInternal`. -/
def restoreDates (sch : Schema) (pd : Bool) (obj : JsVal) (modelName : String) : JsVal :=
  restoreTypesInternal sch pd obj modelName

/-- Components within the four-digit rendering range of `toISOString`. -/
def DateC.validB (d : DateC) : Bool :=
  decide (d.year < 10000) && decide (d.month < 100) && decide (d.day < 100) &&
  decide (d.hour < 100) && decide (d.minute < 100) && decide (d.second < 100) &&
  decide (d.ms < 1000)

mutual

/-- The value contains no date and no decimal object anywhere. -/
def plainVal : JsVal → Bool
  | .vDate _ => false
  | .vDec _ => false
  | .vArr xs => plainList xs
  | .vObj fs => plainFields fs
  | _ => true

/-- `plainVal` over an array's elements. -/
def plainList : List JsVal → Bool
  | [] => true
  | x :: xs => plainVal x && plainList xs

/-- `plainVal` over an object's entry values. -/
def plainFields : List (String × JsVal) → Bool
  | [] => true
  | (_, v) :: fs => plainVal v && plainFields fs

end

/-- The value is `null` or a date within the four-digit rendering range. -/
def nullOrValidDate : JsVal → Bool
  | .vNull => true
  | .vDate d => d.validB
  | _ => false

/-- The value is `null` or a decimal. -/
def nullOrDec : JsVal → Bool
  | .vNull => true
  | .vDec _ => true
  | _ => false

mutual

/-- `conformsVal sch v m`: the model `m`'s field descriptors correctly
describe the dates and decimals occurring in `v`.  Rows are objects whose
`DateTime`-typed fields hold dates (within the four-digit-year rendering
range) or `null`, whose `Decimal`-typed fields hold decimals or `null`, whose
relation fields hold values conforming to the related model, and whose
remaining entries contain no dates or decimals at all; arrays conform
element-wise, and scalars and `null` always conform.  This is the precise
sense in which "fields are known ahead of time". -/
def conformsVal (sch : Schema) : JsVal → String → Bool
  | .vNull, _ => true
  | .vBool _, _ => true
  | .vNum _, _ => true
  | .vStr _, _ => true
  | .vDate _, _ => false
  | .vDec _, _ => false
  | .vArr xs, m => conformsList sch xs m
  | .vObj fs, m => conformsFields sch fs m

/-- `conformsVal` over an array's elements. -/
def conformsList (sch : Schema) : List JsVal → String → Bool
  | [], _ => true
  | x :: xs, m => conformsVal sch x m && conformsList sch xs m

/-- `conformsVal` over an object's entries, mirroring the branch order of
`restoreTypesFields`. -/
def conformsFields (sch : Schema) : List (String × JsVal) → String → Bool
  | [], _ => true
  | (key, value) :: fs, m =>
    (if isDateTimeField sch m key then nullOrValidDate value
    else if isDecimalField sch m key then nullOrDec value
    else
      match List.lookup key (getModelFields sch m) with
      | some f => if f.relation then conformsVal sch value f.type else plainVal value
      | none => plainVal value) && conformsFields sch fs m

end

/-- `JSON.stringify` escaping of a string's characters (quote and backslash;
further escapes concern control characters, which the serializer below treats
as ordinary characters). -/
def jsonEscape (s : String) : String :=
  String.mk ((s.toList.map (fun c =>
    if c = '"' then ['\\', '"']
    else if c = '\\' then ['\\', '\\']
    else [c])).flatten)

mutual

/-- `JSON.stringify` of an embedded value: dates and decimals serialize via
their `toJSON` (ISO string, canonical decimal string). -/
def jsonStringify : JsVal → String
  | .vNull => "null"
  | .vBool true => "true"
  | .vBool false => "false"
  | .vNum n => toString n
  | .vStr s => "\"" ++ jsonEscape s ++ "\""
  | .vDate d => "\"" ++ toISOString d ++ "\""
  | .vDec s => "\"" ++ s ++ "\""
  | .vArr xs => "[" ++ jsonStringifyList xs ++ "]"
  | .vObj fs => "\x7b" ++ jsonStringifyFields fs ++ "\x7d"

/-- Comma-separated serialization of array elements. -/
def jsonStringifyList : List JsVal → String
  | [] => ""
  | [x] => jsonStringify x
  | x :: xs => jsonStringify x ++ "," ++ jsonStringifyList xs

/-- Comma-separated serialization of object entries. -/
def jsonStringifyFields : List (String × JsVal) → String
  | [] => ""
  | [(k, v)] => "\"" ++ jsonEscape k ++ "\":" ++ jsonStringify v
  | (k, v) :: fs =>
    "\"" ++ jsonEscape k ++ "\":" ++ jsonStringify v ++ "," ++ jsonStringifyFields fs

end

/-- `generateCacheKey`: the base segment is the `user:{userId}:` prefix (when
the caller id is truthy) followed by the lowercased model name and the
operation; when the arguments are a truthy object value a second segment holds
their JSON serialization. -/
def generateCacheKey (model operation : String) (queryArgs : JsVal)
    (userId : Option String) : List String :=
  let userPref :=
    match userId with
    | some uid => if uid ≠ "" then "user:" ++ uid ++ ":" else ""
    | none => ""
  let baseKey := userPref ++ toLowerCase model ++ ":" ++ operation
  if !(jsTruthy queryArgs && jsIsObject queryArgs) then [baseKey]
  else [baseKey, jsonStringify queryArgs]

/-- Recognized options of `createNextjsCachePlugin`, with the defaults the
source destructures. -/
structure PluginOptions where
  defaultCacheLife : String := "hours"
  excludeModels : List String := []
  customTagGenerator : Option (String → Option String → List String) := none

/-- `isExcludedModel`: listed in the options or carrying `@@cache.exclude`. -/
def isExcludedModel (opts : PluginOptions) (sch : Schema) (model : String) : Bool :=
  opts.excludeModels.contains model || hasExcludeAttribute sch model

/-- `getTagsForModel`: a caller-supplied generator wins outright; otherwise
non-empty schema custom tags (entity tag appended for a truthy id); otherwise
default generation. -/
def getTagsForModel (opts : PluginOptions) (sch : Schema) (model : String)
    (id : Option String) : List String :=
  match opts.customTagGenerator with
  | some g => g model id
  | none =>
    match getCustomTags sch model with
    | some customTags =>
      if customTags.length > 0 then
        match id with
        | some i =>
          if i ≠ "" then customTags ++ [toLowerCase model ++ ":" ++ i] else customTags
        | none => customTags
      else generateCacheTags model id none
    | none => generateCacheTags model id none

/-- `getCustomLife`: the `@@cache.life` attribute's first argument when it is
one of the six profile names. -/
def getCustomLife (sch : Schema) (model : String) : Option String :=
  match (getModelAttributes sch model).find? (fun attr => attr.name == "@@cache.life") with
  | none => none
  | some attr =>
    match attr.args.head? with
    | none => none
    | some arg =>
      if jsTruthy arg.value then
        match arg.value with
        | .vStr s =>
          if ["seconds", "minutes", "hours", "days", "weeks", "max"].contains s then
            some s
          else none
        | _ => none
      else none

/-- `getLifeForModel`: schema life attribute, else the configured default. -/
def getLifeForModel (opts : PluginOptions) (sch : Schema) (model : String) : String :=
  (getCustomLife sch model).getD opts.defaultCacheLife

/-- The tag set assembled by the `onQuery` read branch (`tags` after the
relation loop): model-level tag resolution for the id extracted from the
arguments, followed by the `list` tag of every non-excluded related model
named by the query's `include`/`select` shape, in extraction order. -/
def readTags (opts : PluginOptions) (sch : Schema) (model : String)
    (queryArgs : JsVal) : List String :=
  let id := extractIdFromArgs queryArgs
  let tags := getTagsForModel opts sch model id
  let includedRelations := extractIncludedRelations sch queryArgs model
  tags ++ (includedRelations.filter
      (fun relatedModel => !isExcludedModel opts sch relatedModel)).map
    (fun relatedModel => toLowerCase relatedModel ++ ":list")

/-- JS template-literal rendering of a row's `id` value.  The scalar cases
follow JS exactly; real ids are strings or numbers, so the remaining cases
are nominal placeholders. -/
def jsIdString : JsVal → String
  | .vStr s => s
  | .vNum n => toString n
  | .vBool true => "true"
  | .vBool false => "false"
  | .vNull => "null"
  | .vDate d => toISOString d
  | .vDec s => s
  | .vArr _ => ""
  | .vObj _ => "[object Object]"

/-- The sequence of tags handed to `invalidateTag` by
`invalidateCacheForModel`, in call order: the model's `list` tag, then the
entity tag of every loaded row that is an object carrying an `id` key.
`invalidateTag` itself only chooses between the immediate and the
stale-while-revalidate primitive and never alters the tag, and the loader is
given as its already-loaded rows (`none` embeds an `undefined` return). -/
def invalidateCacheForModelTrace (model : String)
    (entities : Option (List JsVal)) : List String :=
  (toLowerCase model ++ ":list") ::
    (match entities with
     | some rows =>
       rows.filterMap (fun entity =>
         match entity with
         | .vObj fields =>
           match List.lookup "id" fields with
           | some idVal => some (toLowerCase model ++ ":" ++ jsIdString idVal)
           | none => none
         | _ => none)
     | none => [])

/-- The sequence of tags invalidated by `afterEntityMutation`, in call order:
`invalidateCacheForModel`'s trace for the mutated model, then — for every
non-excluded related model, in relation-field order — that related model's
`list` tag via `invalidateRelatedModelCache`. -/
def afterEntityMutationTrace (opts : PluginOptions) (sch : Schema)
    (model : String) (entities : Option (List JsVal)) : List String :=
  invalidateCacheForModelTrace model entities ++
    ((getRelatedModels sch model).filter
        (fun relatedModel => !isExcludedModel opts sch relatedModel)).map
      (fun relatedModel => toLowerCase relatedModel ++ ":list")

/-- Collaborator environment of one read operation: whether
`import('next/cache')`/`unstable_cache` are usable here, and the outcome of
the n-th `proceed` call (0-based) — `proceed` is opaque and each call may
resolve or reject on its own. -/
structure ReadEnv (ε : Type) where
  cacheAvailable : Bool
  proceedResults : Nat → Except ε JsVal

/-- The external cache store's state: values stored under keys. -/
def CacheStore := List (List String × JsVal)

/-- Caller-visible outcome of one read: the settled result, the store after
the call, and how many times `proceed` ran. -/
structure ReadOutcome (ε : Type) where
  result : Except ε JsVal
  store : CacheStore
  proceedCalls : Nat

/-- One execution of the `onQuery` read branch for a non-excluded model and a
read-classified operation.  When `unstable_cache` is available, the key is
served from the store, or computed by `proceed` followed by `transformDates`
and stored; `restoreDates` is applied to whatever comes back.  Any rejection
inside the `try` block — including the executor's own — falls to the `catch`,
which invokes the executor again directly (the documented purpose of that
`catch` is only the unavailable-`unstable_cache` environment); a rejection of
that second call propagates. -/
def readBranch {ε : Type} (env : ReadEnv ε) (sch : Schema) (pd : Bool)
    (model operation : String) (queryArgs : JsVal) (userId : Option String)
    (store : CacheStore) : ReadOutcome ε :=
  let cacheKey := generateCacheKey model operation queryArgs userId
  let fallback : Nat → ReadOutcome ε := fun calls =>
    match env.proceedResults calls with
    | .ok result =>
      ⟨.ok (restoreDates sch pd (transformDates result) model), store, calls + 1⟩
    | .error e => ⟨.error e, store, calls + 1⟩
  if env.cacheAvailable then
    match List.lookup cacheKey store with
    | some cachedResult => ⟨.ok (restoreDates sch pd cachedResult model), store, 0⟩
    | none =>
      match env.proceedResults 0 with
      | .ok result =>
        let frozen := transformDates result
        ⟨.ok (restoreDates sch pd frozen model), (cacheKey, frozen) :: store, 1⟩
      | .error _ => fallback 1
  else fallback 0

/-- Demonstration schema for the concrete instances: `Post` carries a date
field, a decimal field and relations to `User`, `Comment` and the excluded
`Session`. -/
def demoSchema : Schema :=
  [("Post", { fields := [
      ("id", { type := "String" }),
      ("title", { type := "String" }),
      ("createdAt", { type := "DateTime" }),
      ("price", { type := "Decimal" }),
      ("author", { type := "User", relation := true }),
      ("comments", { type := "Comment", relation := true }),
      ("session", { type := "Session", relation := true })] }),
   ("User", { fields := [
      ("id", { type := "String" }),
      ("joined", { type := "DateTime" }),
      ("posts", { type := "Post", relation := true })] }),
   ("Comment", { fields := [
      ("id", { type := "String" }),
      ("createdAt", { type := "DateTime" }),
      ("author", { type := "User", relation := true })] }),
   ("Session", { fields := [("id", { type := "String" })],
                 attrs := [{ name := "@@cache.exclude" }] })]

/-- `{include: {author: true}}`. -/
def argsIncludeAuthor : JsVal := .vObj [("include", .vObj [("author", .vBool true)])]

/-- `{include: {author: 1}}` — a truthy non-boolean include value. -/
def argsIncludeAuthorNum : JsVal := .vObj [("include", .vObj [("author", .vNum 1)])]

/-- `{select: {author: {select: {id: true}}}}` — a structured select value. -/
def argsSelectAuthorObj : JsVal :=
  .vObj [("select", .vObj [("author", .vObj [("select", .vObj [("id", .vBool true)])])])]

/-- `{select: {author: true}}` — a boolean select value. -/
def argsSelectAuthorBool : JsVal := .vObj [("select", .vObj [("author", .vBool true)])]

/-- `{include: {session: true, author: true}}` — one excluded and one
non-excluded related model. -/
def argsIncludeSessionAuthor : JsVal :=
  .vObj [("include", .vObj [("session", .vBool true), ("author", .vBool true)])]

/-- A list of post rows with a date, a decimal, a related row, a related
array, a plain nested object under a non-schema key, and a plain string that
merely looks date-like. -/
def roundtripSample : JsVal :=
  .vArr [.vObj [
    ("id", .vStr "p1"),
    ("title", .vStr "2024-01-02T03:04:05 is plain text here"),
    ("createdAt", .vDate ⟨2024, 5, 17, 13, 4, 5, 42⟩),
    ("price", .vDec "19.5"),
    ("author", .vObj [("id", .vStr "u1"),
                      ("joined", .vDate ⟨1999, 12, 31, 23, 59, 59, 999⟩),
                      ("posts", .vArr [])]),
    ("comments", .vArr [.vObj [("id", .vStr "c1"), ("createdAt", .vNull),
                               ("author", .vNull)]]),
    ("meta", .vObj [("likes", .vNum 5)])]]

/-- Schema whose model declares `@@cache.tags([])`. -/
def emptyTagsSchema : Schema :=
  [("Widget", { fields := [("id", { type := "String" })],
                attrs := [{ name := "@@cache.tags", args := [{ value := .vArr [] }] }] })]

/-- Options carrying a caller-supplied tag generator. -/
def genOpts : PluginOptions :=
  { customTagGenerator := some (fun model _ => ["custom:" ++ toLowerCase model]) }

/-- Executor environment whose first call rejects and whose second call
resolves, with `unstable_cache` available. -/
def flakyEnv : ReadEnv String :=
  { cacheAvailable := true,
    proceedResults := fun n => if n = 0 then .error "db down" else .ok (.vStr "late") }

theorem digitChar_isDigit : ∀ n < 10, (digitChar n).isDigit = true := by decide

theorem digitChar_toNat : ∀ n < 10, (digitChar n).toNat = 48 + n := by decide

theorem toList_mk (l : List Char) : (String.mk l).toList = l := rfl

theorem d2_digits (n : Nat) (h : n < 100) :
    d2 (digitChar (n / 10 % 10)) (digitChar (n % 10)) = n := by
  have h1 := digitChar_toNat (n / 10 % 10) (by omega)
  have h2 := digitChar_toNat (n % 10) (by omega)
  simp only [d2, h1, h2]
  omega

theorem d3_digits (n : Nat) (h : n < 1000) :
    d3 (digitChar (n / 100 % 10)) (digitChar (n / 10 % 10)) (digitChar (n % 10)) = n := by
  have h1 := digitChar_toNat (n / 100 % 10) (by omega)
  have h2 := digitChar_toNat (n / 10 % 10) (by omega)
  have h3 := digitChar_toNat (n % 10) (by omega)
  simp only [d3, h1, h2, h3]
  omega

theorem d4_digits (n : Nat) (h : n < 10000) :
    d4 (digitChar (n / 1000 % 10)) (digitChar (n / 100 % 10))
      (digitChar (n / 10 % 10)) (digitChar (n % 10)) = n := by
  have h1 := digitChar_toNat (n / 1000 % 10) (by omega)
  have h2 := digitChar_toNat (n / 100 % 10) (by omega)
  have h3 := digitChar_toNat (n / 10 % 10) (by omega)
  have h4 := digitChar_toNat (n % 10) (by omega)
  simp only [d4, h1, h2, h3, h4]
  omega

theorem isoRegexTest_toISOString (d : DateC) : isoRegexTest (toISOString d) = true := by
  obtain ⟨y, mo, dd, hh, mi, ss, ms⟩ := d
  simp only [toISOString, pad4, pad2, pad3, List.cons_append, List.nil_append,
    isoRegexTest, toList_mk, List.all_cons, List.all_nil, Bool.and_true]
  simp [digitChar_isDigit _ (Nat.mod_lt _ (by norm_num))]

theorem parseISO_toISOString (d : DateC) (h : d.validB = true) :
    parseISO (toISOString d) = some d := by
  obtain ⟨y, mo, dd, hh, mi, ss, ms⟩ := d
  simp only [DateC.validB, Bool.and_eq_true, decide_eq_true_eq] at h
  obtain ⟨⟨⟨⟨⟨⟨hy, hmo⟩, hdd⟩, hhh⟩, hmi⟩, hss⟩, hms⟩ := h
  simp only [toISOString, pad4, pad2, pad3, List.cons_append, List.nil_append,
    parseISO, toList_mk, List.all_cons, List.all_nil, Bool.and_true]
  simp only [digitChar_isDigit _ (Nat.mod_lt _ (by norm_num)), Bool.and_self,
    if_pos]
  rw [d4_digits y hy, d2_digits mo hmo, d2_digits dd hdd, d2_digits hh hhh,
    d2_digits mi hmi, d2_digits ss hss, d3_digits ms hms]

theorem jsIsNullish_transformDates (v : JsVal) :
    jsIsNullish (transformDates v) = jsIsNullish v := by
  cases v <;> simp [transformDates, jsIsNullish]

mutual

theorem transformDates_plain : ∀ v : JsVal, plainVal v = true → transformDates v = v
  | .vNull, _ => by simp [transformDates]
  | .vBool _, _ => by simp [transformDates]
  | .vNum _, _ => by simp [transformDates]
  | .vStr _, _ => by simp [transformDates]
  | .vDate _, h => by simp [plainVal] at h
  | .vDec _, h => by simp [plainVal] at h
  | .vArr xs, h => by
    simp only [plainVal] at h
    simp only [transformDates, transformDatesList_plain xs h]
  | .vObj fs, h => by
    simp only [plainVal] at h
    simp only [transformDates, transformDatesFields_plain fs h]

theorem transformDatesList_plain : ∀ xs : List JsVal, plainList xs = true →
    transformDatesList xs = xs
  | [], _ => by simp [transformDatesList]
  | x :: xs, h => by
    simp only [plainList, Bool.and_eq_true] at h
    simp only [transformDatesList, transformDates_plain x h.1,
      transformDatesList_plain xs h.2]

theorem transformDatesFields_plain : ∀ fs : List (String × JsVal),
    plainFields fs = true → transformDatesFields fs = fs
  | [], _ => by simp [transformDatesFields]
  | (k, v) :: fs, h => by
    simp only [plainFields, Bool.and_eq_true] at h
    simp only [transformDatesFields, transformDates_plain v h.1,
      transformDatesFields_plain fs h.2]

end

mutual

/-- Freeze-then-thaw is the identity on values whose date and decimal fields
the model correctly describes (Prisma Decimal available). -/
theorem roundtripVal (sch : Schema) : ∀ (v : JsVal) (m : String),
    conformsVal sch v m = true →
    restoreTypesInternal sch true (transformDates v) m = v
  | .vNull, m, _ => by simp [transformDates, restoreTypesInternal]
  | .vBool _, m, _ => by simp [transformDates, restoreTypesInternal]
  | .vNum _, m, _ => by simp [transformDates, restoreTypesInternal]
  | .vStr _, m, _ => by simp [transformDates, restoreTypesInternal]
  | .vDate _, m, h => by simp [conformsVal] at h
  | .vDec _, m, h => by simp [conformsVal] at h
  | .vArr xs, m, h => by
    simp only [conformsVal] at h
    simp only [transformDates, restoreTypesInternal, roundtripList sch xs m h]
  | .vObj fs, m, h => by
    simp only [conformsVal] at h
    simp only [transformDates, restoreTypesInternal, roundtripFields sch fs m h]

theorem roundtripList (sch : Schema) : ∀ (xs : List JsVal) (m : String),
    conformsList sch xs m = true →
    restoreTypesList sch true (transformDatesList xs) m = xs
  | [], m, _ => by simp [transformDatesList, restoreTypesList]
  | x :: xs, m, h => by
    simp only [conformsList, Bool.and_eq_true] at h
    simp only [transformDatesList, restoreTypesList, roundtripVal sch x m h.1,
      roundtripList sch xs m h.2]

theorem roundtripFields (sch : Schema) : ∀ (fs : List (String × JsVal)) (m : String),
    conformsFields sch fs m = true →
    restoreTypesFields sch true (transformDatesFields fs) m = fs
  | [], m, _ => by simp [transformDatesFields, restoreTypesFields]
  | (key, value) :: fs, m, h => by
    simp only [conformsFields, Bool.and_eq_true] at h
    obtain ⟨h1, h2⟩ := h
    simp only [transformDatesFields, restoreTypesFields,
      roundtripFields sch fs m h2, List.cons.injEq, Prod.mk.injEq, true_and,
      and_true]
    by_cases hdt : isDateTimeField sch m key
    · simp only [hdt, if_true] at h1 ⊢
      cases value with
      | vNull =>
        simp only [transformDates, jsIsString, Bool.false_and, Bool.and_false,
          Bool.if_false_left, jsIsNullish, Bool.not_true, Bool.false_and,
          Bool.and_false]
        simp only [Bool.false_eq_true, if_false]
        cases List.lookup key (getModelFields sch m) with
        | none => rfl
        | some f => simp [jsIsNullish]
      | vDate d =>
        simp only [nullOrValidDate] at h1
        simp only [transformDates, jsIsString, strOf, Bool.and_true,
          isoRegexTest_toISOString, Bool.and_self, if_pos]
        simp only [jsNewDate, parseISO_toISOString d h1]
      | vBool b => simp [nullOrValidDate] at h1
      | vNum n => simp [nullOrValidDate] at h1
      | vStr s => simp [nullOrValidDate] at h1
      | vDec s => simp [nullOrValidDate] at h1
      | vArr xs => simp [nullOrValidDate] at h1
      | vObj gs => simp [nullOrValidDate] at h1
    · simp only [hdt, if_false] at h1 ⊢
      by_cases hdec : isDecimalField sch m key
      · simp only [hdec, if_true] at h1 ⊢
        cases value with
        | vNull =>
          simp only [transformDates, jsIsString, jsIsNullish, Bool.not_true,
            Bool.and_false, Bool.false_and]
          simp only [Bool.false_eq_true, if_false]
          cases List.lookup key (getModelFields sch m) with
          | none => rfl
          | some f => simp [jsIsNullish]
        | vDec s =>
          simp only [transformDates, jsIsString, jsIsNullish, jsIsNumber,
            Bool.not_false, Bool.and_true, Bool.true_and, Bool.or_false,
            Bool.and_self, if_pos, if_true]
          simp [jsNewDecimal]
        | vBool b => simp [nullOrDec] at h1
        | vNum n => simp [nullOrDec] at h1
        | vStr s => simp [nullOrDec] at h1
        | vDate d => simp [nullOrDec] at h1
        | vArr xs => simp [nullOrDec] at h1
        | vObj gs => simp [nullOrDec] at h1
      · simp only [hdec, if_false] at h1 ⊢
        cases hl : List.lookup key (getModelFields sch m) with
        | none =>
          rw [hl] at h1
          simp only [transformDates_plain value h1]
          simp
        | some f =>
          rw [hl] at h1
          by_cases hrel : f.relation
          · simp only [hrel, if_true] at h1
            simp only [hrel, Bool.true_and, jsIsNullish_transformDates]
            by_cases hnull : jsIsNullish value
            · have : value = .vNull := by
                cases value <;> simp [jsIsNullish] at hnull ⊢
              subst this
              simp [transformDates, jsIsNullish]
            · simp only [hnull, Bool.not_false, if_true]
              exact roundtripVal sch value f.type h1
          · simp only [hrel, if_false] at h1
            simp only [hrel, Bool.false_and]
            simp only [transformDates_plain value h1]
            simp

end

/-- C1: the claim says a `proceed` rejection on a read propagates to the
caller unchanged — the cache layer never wraps, swallows, or retries the data
operation, and no partial cache write occurs.  With `unstable_cache`
available and a cache miss, the source's `try`/`catch` around the cached path
— whose own comment scopes it to environments lacking `unstable_cache` —
also catches the executor's rejection and invokes `proceed` a second time:
here the first call rejects, the retry resolves, and the caller observes
success after two executor calls (the store stays untouched), so the failure
was swallowed and the operation retried, contradicting the claim. -/
theorem claim_C1_read_failure_retried :
    (readBranch flakyEnv [] true "Post" "findMany" (.vObj []) none []).result =
        .ok (.vStr "late") ∧
    (readBranch flakyEnv [] true "Post" "findMany" (.vObj []) none []).proceedCalls = 2 ∧
    (readBranch flakyEnv [] true "Post" "findMany" (.vObj []) none []).store = [] :=
  ⟨rfl, rfl, rfl⟩

/-- C2: for every value composed of dates, nested mappings and sequences and
every model whose field descriptors correctly describe the value's date (and
decimal) fields (`conformsVal`), with the Prisma decimal type available,
`restoreDates (transformDates v) m` is structurally equal to `v`: freeze and
thaw are exact inverses when the fields are known ahead of time. -/
theorem claim_C2_freeze_thaw_roundtrip (sch : Schema) (m : String) (v : JsVal)
    (h : conformsVal sch v m = true) :
    restoreDates sch true (transformDates v) m = v :=
  roundtripVal sch v m h

/-- Witness for C2 at a concrete list of post rows. -/
theorem claim_C2_freeze_thaw_roundtrip_witness :
    conformsVal demoSchema roundtripSample "Post" = true ∧
    restoreDates demoSchema true (transformDates roundtripSample) "Post" =
      roundtripSample :=
  ⟨rfl, claim_C2_freeze_thaw_roundtrip demoSchema "Post" roundtripSample rfl⟩

/-- C3 counterexample: the empty string is an id, and with it default
generation yields only the list tag, not the claimed two-tag sequence
(`if (id)` is false on the empty string). -/
theorem claim_C3_counterexample :
    generateCacheTags "Post" (some "") none ≠ ["post:list", "post:"] := by
  decide

/-- C3 (amended): for every model and every non-empty id, default tag
generation yields exactly the list tag followed by the entity tag; with no
id it yields exactly the list tag. -/
theorem claim_C3_default_tag_generation (m i : String) (h : i ≠ "") :
    generateCacheTags m (some i) none =
      [toLowerCase m ++ ":list", toLowerCase m ++ ":" ++ i] ∧
    generateCacheTags m none none = [toLowerCase m ++ ":list"] := by
  refine ⟨?_, rfl⟩
  simp [generateCacheTags, h]

/-- Witness for C3 (amended) at model `Post`, id `42`. -/
theorem claim_C3_default_tag_generation_witness :
    "42" ≠ "" ∧
    (generateCacheTags "Post" (some "42") none = ["post:list", "post:42"] ∧
     generateCacheTags "Post" none none = ["post:list"]) :=
  ⟨by decide, claim_C3_default_tag_generation "Post" "42" (by decide)⟩

/-- C4: the life-profile mapping is exactly seconds↦1, minutes↦60,
hours↦3600, days↦86400, weeks↦604800, max↦31536000, and every unrecognized
profile string maps to 3600. -/
theorem claim_C4_revalidate_seconds :
    getCacheRevalidateSeconds "seconds" = 1 ∧
    getCacheRevalidateSeconds "minutes" = 60 ∧
    getCacheRevalidateSeconds "hours" = 3600 ∧
    getCacheRevalidateSeconds "days" = 86400 ∧
    getCacheRevalidateSeconds "weeks" = 604800 ∧
    getCacheRevalidateSeconds "max" = 31536000 ∧
    ∀ profile : String,
      profile ∉ ["seconds", "minutes", "hours", "days", "weeks", "max"] →
      getCacheRevalidateSeconds profile = 3600 := by
  refine ⟨rfl, rfl, rfl, rfl, rfl, rfl, fun profile h => ?_⟩
  unfold getCacheRevalidateSeconds
  split <;> simp_all

/-- Witness for C4's default branch at the unrecognized profile `century`. -/
theorem claim_C4_revalidate_seconds_witness :
    getCacheRevalidateSeconds "century" = 3600 :=
  claim_C4_revalidate_seconds.2.2.2.2.2.2 "century" (by decide)

/-- C5: for `Post` with relation `author`→`User`, an `include:{author:true}`
read carries both `post:list` and `user:list`; an empty-args read carries
exactly `[post:list]`; a relation field contributes its related model's list
tag for any truthy include value and for a structured (non-boolean object)
select value but not for a boolean select value; and the excluded related
model `Session` is skipped. -/
theorem claim_C5_read_relation_widening :
    ("post:list" ∈ readTags {} demoSchema "Post" argsIncludeAuthor ∧
     "user:list" ∈ readTags {} demoSchema "Post" argsIncludeAuthor) ∧
    readTags {} demoSchema "Post" (.vObj []) = ["post:list"] ∧
    readTags {} demoSchema "Post" argsIncludeAuthorNum = ["post:list", "user:list"] ∧
    readTags {} demoSchema "Post" argsSelectAuthorObj = ["post:list", "user:list"] ∧
    readTags {} demoSchema "Post" argsSelectAuthorBool = ["post:list"] ∧
    readTags {} demoSchema "Post" argsIncludeSessionAuthor = ["post:list", "user:list"] :=
  ⟨⟨by decide, by decide⟩, rfl, rfl, rfl, rfl, rfl⟩

/-- C6: after a committed mutation of a model with loaded rows, the
invalidation sequence is exactly: the model's own list tag, then the entity
tag of every loaded row that carries an `id` (in row order), then the list
tag of every non-excluded model directly related to it (in relation-field
order). -/
theorem claim_C6_invalidation_order (opts : PluginOptions) (sch : Schema)
    (model : String) (rows : List JsVal) :
    afterEntityMutationTrace opts sch model (some rows) =
      [toLowerCase model ++ ":list"] ++
        rows.filterMap (fun entity =>
          match entity with
          | .vObj fields =>
            match List.lookup "id" fields with
            | some idVal => some (toLowerCase model ++ ":" ++ jsIdString idVal)
            | none => none
          | _ => none) ++
        ((getRelatedModels sch model).filter
            (fun relatedModel => !isExcludedModel opts sch relatedModel)).map
          (fun relatedModel => toLowerCase relatedModel ++ ":list") := by
  simp [afterEntityMutationTrace, invalidateCacheForModelTrace]

/-- C7: key generation is deterministic — for a fixed (model, operation,
args, callerId) tuple two computations of `generateCacheKey` yield identical
output sequences (the embedded serializer is a pure function of the value,
which is what stability amounts to for identical argument values). -/
theorem claim_C7_key_determinism (model operation : String) (queryArgs : JsVal)
    (userId : Option String) :
    generateCacheKey model operation queryArgs userId =
      generateCacheKey model operation queryArgs userId := rfl

/-- C8: default generation treats the empty-string id like an absent id —
the entity tag is appended exactly when the id is a non-empty string. -/
theorem claim_C8_empty_string_id (m : String) (id : Option String) :
    generateCacheTags m (some "") none = [toLowerCase m ++ ":list"] ∧
    generateCacheTags m id none =
      [toLowerCase m ++ ":list"] ++
        (match id with
         | some i => if i = "" then [] else [toLowerCase m ++ ":" ++ i]
         | none => []) := by
  refine ⟨rfl, ?_⟩
  cases id with
  | none => rfl
  | some i => by_cases h : i = "" <;> simp [generateCacheTags, h]

/-- C9: a model declaring `@@cache.tags` with an empty list (or a non-array
value, which `getCustomTags` already maps to `none`) resolves its tags
exactly as default generation does — declared custom tags take effect only
when the list is non-empty. -/
theorem claim_C9_empty_custom_tags_fallback (opts : PluginOptions) (sch : Schema)
    (model : String) (id : Option String)
    (hg : opts.customTagGenerator = none)
    (h : getCustomTags sch model = some [] ∨ getCustomTags sch model = none) :
    getTagsForModel opts sch model id = generateCacheTags model id none := by
  unfold getTagsForModel
  rw [hg]
  rcases h with h | h <;> rw [h] <;> simp

/-- Witness for C9 on the `@@cache.tags([])` schema. -/
theorem claim_C9_empty_custom_tags_fallback_witness :
    (PluginOptions.customTagGenerator {} = none ∧
     (getCustomTags emptyTagsSchema "Widget" = some [] ∨
      getCustomTags emptyTagsSchema "Widget" = none)) ∧
    getTagsForModel {} emptyTagsSchema "Widget" (some "7") =
      generateCacheTags "Widget" (some "7") none :=
  ⟨⟨rfl, Or.inl rfl⟩,
    claim_C9_empty_custom_tags_fallback {} emptyTagsSchema "Widget" (some "7")
      rfl (Or.inl rfl)⟩

/-- C10: on the read path the relation-widening list tags are appended after
model-level tag resolution even when a caller-supplied generator is in use,
so for a query with at least one non-excluded included relation the
generator's output is a strict prefix of — never equal to — the final tag
set. -/
theorem claim_C10_generator_output_extended (opts : PluginOptions) (sch : Schema)
    (model : String) (queryArgs : JsVal)
    (g : String → Option String → List String)
    (hg : opts.customTagGenerator = some g)
    (hne : (extractIncludedRelations sch queryArgs model).filter
        (fun r => !isExcludedModel opts sch r) ≠ []) :
    readTags opts sch model queryArgs =
      g model (extractIdFromArgs queryArgs) ++
        ((extractIncludedRelations sch queryArgs model).filter
            (fun r => !isExcludedModel opts sch r)).map
          (fun r => toLowerCase r ++ ":list") ∧
    readTags opts sch model queryArgs ≠ g model (extractIdFromArgs queryArgs) := by
  have h1 : readTags opts sch model queryArgs =
      g model (extractIdFromArgs queryArgs) ++
        ((extractIncludedRelations sch queryArgs model).filter
            (fun r => !isExcludedModel opts sch r)).map
          (fun r => toLowerCase r ++ ":list") := by
    simp only [readTags, getTagsForModel, hg]
  refine ⟨h1, ?_⟩
  rw [h1]
  intro hEq
  have h3 : (List.filter (fun r => !isExcludedModel opts sch r)
      (extractIncludedRelations sch queryArgs model)).length = 0 := by
    have h2 := congrArg List.length hEq
    simp only [List.length_append, List.length_map] at h2
    omega
  exact hne (List.eq_nil_of_length_eq_zero h3)

/-- Witness for C10 with a concrete generator and an `include:{author:true}`
query on `Post`. -/
theorem claim_C10_generator_output_extended_witness :
    readTags genOpts demoSchema "Post" argsIncludeAuthor =
      ["custom:post"] ++ ["user:list"] ∧
    readTags genOpts demoSchema "Post" argsIncludeAuthor ≠ ["custom:post"] := by
  have h := claim_C10_generator_output_extended genOpts demoSchema "Post"
    argsIncludeAuthor (fun model _ => ["custom:" ++ toLowerCase model]) rfl (by decide)
  exact ⟨h.1, h.2⟩

end NextjsCache
